import Mathlib

/-!
Verification of the graphic-design MCP servers.

This file gives a shallow embedding of the three source files of the
repository:

* `mcp-graphic-design.py` — the hand-rolled JSON-RPC stdio dispatcher
  (`main`, `call_tool`, `fetch_image_base64`, `analyze_image_with_openai`,
  `initialize_server`, `list_tools`).
* `mcp_graphic_design.py` — the FastMCP tool variants (`analyze_design` and
  its near-duplicates, the active second definition of
  `analyze_pdf_presentation`, `analyze_website_design`, and
  `convert_google_links_to_direct_urls`).
* `google_link_converter.py` — the standalone copy of
  `convert_google_links_to_direct_urls`.

External effects (HTTP GET, the OpenAI client, base64, the cursor config
file) are modelled by oracle fields of a `World` record; every tool returns
its value together with a `Trace` recording which URLs were fetched and how
many analysis (OpenAI) calls were made.
-/

/-! ## Python string primitives -/

/-- Characters stripped by the Python `str.strip()` method (ASCII whitespace). -/
def isPySpace (c : Char) : Bool :=
  c == ' ' || c == '\t' || c == '\n' || c == '\x0d' || c == '\x0b' || c == '\x0c'

/-- Right-strip of a character list (Python `str.rstrip()` on ASCII whitespace). -/
def rstripL (l : List Char) : List Char :=
  (l.reverse.dropWhile isPySpace).reverse

/-- Both-sides strip of a character list (Python `str.strip()`). -/
def stripL (l : List Char) : List Char :=
  rstripL (l.dropWhile isPySpace)

/-- Python `str.strip()`. -/
def pyStrip (s : String) : String := String.mk (stripL s.data)

/-- Python `str.lstrip('@')`. -/
def pyLstripAt (s : String) : String := String.mk (s.data.dropWhile (fun c => c == '@'))

/-- Python `str.lower()` (ASCII). -/
def lowerS (s : String) : String := String.mk (s.data.map Char.toLower)

/-- Python `str.startswith(pre)`. -/
def startsWithL (s pre : String) : Bool := pre.data.isPrefixOf s.data

/-- Python `str.endswith(suf)`. -/
def endsWithL (s suf : String) : Bool := suf.data.isSuffixOf s.data

/-- Helper for the Python `sub in s` substring test. -/
def containsSubAux (sub : List Char) : List Char → Bool
  | [] => sub.isEmpty
  | c :: rest => sub.isPrefixOf (c :: rest) || containsSubAux sub rest

/-- Python `sub in s` substring containment. -/
def containsSubL (sub s : String) : Bool := containsSubAux sub.data s.data

/-- URL cleaning of the FastMCP tools: `url.strip().lstrip('@')`. -/
def cleanUrlA (s : String) : String := pyLstripAt (pyStrip s)

/-- URL cleaning of `call_tool` in `mcp-graphic-design.py`: `url.lstrip('@').strip()`. -/
def cleanUrlB (s : String) : String := pyStrip (pyLstripAt s)

/-! ## JSON values and the JSON-RPC envelope -/

/-- JSON values as parsed by `json.loads` (numbers modelled as integers). -/
inductive JVal where
  | null
  | bool (b : Bool)
  | num (n : Int)
  | str (s : String)
  | arr (xs : List JVal)
  | obj (kvs : List (String × JVal))

/-- Python `dict.get` on a parsed JSON object (first binding wins; parsed
JSON objects have unique keys). -/
def jlookup : List (String × JVal) → String → Option JVal
  | [], _ => none
  | (k2, v) :: rest, k => if k2 = k then some v else jlookup rest k

/-- Python truthiness of a JSON value. -/
def pyTruthy : JVal → Bool
  | .null => false
  | .bool b => b
  | .num n => !(n == 0)
  | .str s => !(s == "")
  | .arr xs => !xs.isEmpty
  | .obj kvs => !kvs.isEmpty

/-- Python type name of a JSON value, as it appears in `AttributeError` messages. -/
def pyTypeName : JVal → String
  | .null => "NoneType"
  | .bool _ => "bool"
  | .num _ => "int"
  | .str _ => "str"
  | .arr _ => "list"
  | .obj _ => "dict"

/-- Message of a Python `AttributeError` (e.g. calling `.get` on a non-dict). -/
def noAttrMsg (v : JVal) (attrName : String) : String :=
  "\u0027" ++ pyTypeName v ++ "\u0027 object has no attribute \u0027" ++ attrName ++ "\u0027"

mutual

/-- Python `str()` of a JSON value (used by f-string interpolation). -/
def pyFormat : JVal → String
  | .null => "None"
  | .bool true => "True"
  | .bool false => "False"
  | .num n => toString n
  | .str s => s
  | .arr xs => "[" ++ pyCommaList xs ++ "]"
  | .obj kvs => "\x7b" ++ pyCommaObj kvs ++ "\x7d"

/-- Python `repr()` of a JSON value (used for elements inside containers). -/
def pyReprV : JVal → String
  | .null => "None"
  | .bool true => "True"
  | .bool false => "False"
  | .num n => toString n
  | .str s => "\u0027" ++ s ++ "\u0027"
  | .arr xs => "[" ++ pyCommaList xs ++ "]"
  | .obj kvs => "\x7b" ++ pyCommaObj kvs ++ "\x7d"

/-- Comma-separated reprs of list elements. -/
def pyCommaList : List JVal → String
  | [] => ""
  | [x] => pyReprV x
  | x :: y :: rest => pyReprV x ++ ", " ++ pyCommaList (y :: rest)

/-- Comma-separated reprs of dict entries. -/
def pyCommaObj : List (String × JVal) → String
  | [] => ""
  | [(k, v)] => "\u0027" ++ k ++ "\u0027: " ++ pyReprV v
  | (k, v) :: y :: rest => "\u0027" ++ k ++ "\u0027: " ++ pyReprV v ++ ", " ++ pyCommaObj (y :: rest)

end

/-- A JSON-RPC error member. -/
structure ErrObj where
  code : Int
  message : String

/-- A JSON-RPC response object as built by `mcp-graphic-design.py`: the
`jsonrpc` field is constant, `id` is echoed, and exactly one of `result`
and `error` is populated at each construction site. -/
structure Response where
  id : JVal
  result : Option JVal
  error : Option ErrObj

/-- A success response (construction sites that set a `result` member). -/
def okResp (i : JVal) (v : JVal) : Response := ⟨i, some v, none⟩

/-- An error response (construction sites that set an `error` member). -/
def errResp (i : JVal) (c : Int) (m : String) : Response := ⟨i, none, some ⟨c, m⟩⟩

/-- Effect trace of a tool invocation: the URLs passed to `requests.get`
and the number of OpenAI chat-completion calls issued. -/
structure Trace where
  gets : List String
  analyses : Nat
deriving DecidableEq

/-- The request identifier a response must echo: the `id` member of the
parsed request object, or null when absent, unparsable, or not an object. -/
def reqIdOfObj (kvs : List (String × JVal)) : JVal :=
  (jlookup kvs "id").getD JVal.null

/-- Request identifier from a parse outcome (`Except.error` = `json.loads` raised). -/
def reqIdOf : Except String JVal → JVal
  | .error _ => JVal.null
  | .ok (JVal.obj kvs) => reqIdOfObj kvs
  | .ok _ => JVal.null

/-- Envelope well-formedness: the response echoes the given id and carries
exactly one of `result` and `error`. -/
def envOk (i : JVal) (r : Response) : Prop :=
  r.id = i ∧ ((r.result.isSome = true ∧ r.error = none) ∨ (r.result = none ∧ r.error.isSome = true))

/-! ## Oracles for the external world -/

/-- Outcome of one `requests.get`: a response (status, reason phrase,
content-type header, body) or a raised `RequestException`. -/
inductive FetchResult where
  | ok (status : Nat) (reason : String) (contentType : String) (content : String)
  | exn (msg : String)

/-- Process environment and external services. -/
structure World where
  /-- `os.getenv("OPENAI_API_KEY")`. -/
  apiKey : Option String
  /-- `get_openai_key_from_cursor_config()`: the key, or the message of the
  exception its body raised (missing file, missing key, ...). -/
  cursorKey : Except String String
  /-- `requests.get` on a URL. -/
  httpGet : String → FetchResult
  /-- `base64.b64encode(...).decode()`. -/
  b64encode : String → String
  /-- One OpenAI chat-completion call: full request payload to answer text. -/
  openai : String → Except String String

/-! ## Hand-rolled dispatcher (`mcp-graphic-design.py`) -/

/-- The static `initialize` result object. -/
def initializeResult : JVal :=
  JVal.obj
    [("protocolVersion", JVal.str "2024-11-05"),
     ("capabilities", JVal.obj
        [("tools", JVal.obj []), ("logging", JVal.obj []),
         ("prompts", JVal.obj []), ("resources", JVal.obj [])]),
     ("serverInfo", JVal.obj
        [("name", JVal.str "Grafik Tasarım MCP"), ("version", JVal.str "1.0.0")])]

/-- `initialize_server(request_id)`. -/
def initialize_server (i : JVal) : Response := okResp i initializeResult

/-- The static tool descriptor list of `list_tools`. -/
def toolsListResult : JVal :=
  JVal.obj
    [("tools", JVal.arr
       [JVal.obj
         [("name", JVal.str "analyze_design"),
          ("description", JVal.str "Grafik tasarım görselini analiz eder ve puanlama yapar"),
          ("inputSchema", JVal.obj
            [("type", JVal.str "object"),
             ("properties", JVal.obj
               [("url", JVal.obj
                  [("type", JVal.str "string"),
                   ("description", JVal.str "Analiz edilecek görselin URL\u0027si")])]),
             ("required", JVal.arr [JVal.str "url"])])]])]

/-- `list_tools(request_id)`. -/
def list_tools (i : JVal) : Response := okResp i toolsListResult

/-- `fetch_image_base64(url)`: result (base64 content or exception message)
together with the URLs passed to `requests.get`. -/
def fetch_image_base64 (url : String) (w : World) : Except String String × List String :=
  match w.httpGet url with
  | .exn m => (.error ("Görsel indirme hatası: " ++ m), [url])
  | .ok st _ _ content =>
    if st ≠ 200 then
      (.error ("Görsel indirme hatası: Görsel indirilemedi. HTTP " ++ toString st), [url])
    else (.ok (w.b64encode content), [url])

/-- The vision prompt of `analyze_image_with_openai` (abridged only in
whitespace; its text does not influence control flow). -/
def cursorVisionPrompt : String :=
  "Sen profesyonel bir UI/UX tasarım uzmanısın.
Verilen tasarım görselini şu kategorilerde analiz et:

1. **Görsel Uyum** (renkler, tipografi, düzen tutarlılığı)
2. **Netlik** (bilginin ne kadar açık aktarıldığı)
3. **Kullanıcı Dostu Olma** (kullanım kolaylığı, sezgisel akış)
4. **Etkileşim** (navigasyon, buton netliği, etkileşim ipuçları)
5. **Yaratıcılık** (özgünlük ve tasarım benzersizliği)

Her kategori için:
- 10 üzerinden puan ver
- Kısa açıklama yap

Sonunda genel bir puan ver (10 üzerinden ortalama)."

/-- `analyze_image_with_openai(b64img)`: answer (or wrapped exception
message) and the number of OpenAI calls issued. The cursor-config key is
resolved first; a failure there aborts before any OpenAI call. -/
def analyze_image_with_openai (b64img : String) (w : World) : Except String String × Nat :=
  match w.cursorKey with
  | .error m => (.error ("OpenAI analiz hatası: API key alınırken hata: " ++ m), 0)
  | .ok _ =>
    match w.openai (cursorVisionPrompt ++ "\ndata:image/png;base64," ++ b64img) with
    | .error m => (.error ("OpenAI analiz hatası: " ++ m), 1)
    | .ok a => (.ok a, 1)

/-- Body of `call_tool` for tool `analyze_design` once the URL string has
been cleaned: download, analyze, wrap into the envelope. -/
def run_analyze_design (i : JVal) (u : String) (w : World) : Response × Trace :=
  match fetch_image_base64 u w with
  | (.error m, gets) => (errResp i (-32000) m, ⟨gets, 0⟩)
  | (.ok b64img, gets) =>
    match analyze_image_with_openai b64img w with
    | (.error m, n) => (errResp i (-32000) m, ⟨gets, n⟩)
    | (.ok analysis, n) =>
      (okResp i (JVal.obj
        [("content", JVal.arr
          [JVal.obj
            [("type", JVal.str "text"),
             ("text", JVal.str ("🎨 **Grafik Tasarım Analizi**\n\n" ++ analysis))]])]),
       ⟨gets, n⟩)

/-- `call_tool(request_id, tool_name, arguments)`. Every raised exception is
caught and becomes a `-32000` error envelope. -/
def call_tool (i name args : JVal) (w : World) : Response × Trace :=
  match name with
  | .str tname =>
    if tname = "analyze_design" then
      match args with
      | .obj kvs =>
        if pyTruthy ((jlookup kvs "url").getD JVal.null) then
          match (jlookup kvs "url").getD JVal.null with
          | .str u0 => run_analyze_design i (cleanUrlB u0) w
          | other => (errResp i (-32000) (noAttrMsg other "lstrip"), ⟨[], 0⟩)
        else (errResp i (-32000) "URL parametresi gerekli", ⟨[], 0⟩)
      | other => (errResp i (-32000) (noAttrMsg other "get"), ⟨[], 0⟩)
    else (errResp i (-32000) ("Bilinmeyen tool: " ++ tname), ⟨[], 0⟩)
  | other => (errResp i (-32000) ("Bilinmeyen tool: " ++ pyFormat other), ⟨[], 0⟩)

/-- `main()` (named `mainDispatch` since Lean reserves `main`): reads stdin (`input`), parses it (`parse` is the outcome of
`json.loads input`), dispatches, and writes at most one response. -/
def mainDispatch (input : String) (parse : Except String JVal) (w : World) : Option Response :=
  if pyStrip input = "" then none
  else
    match parse with
    | .error msg => some (errResp JVal.null (-32700) ("Parse error: " ++ msg))
    | .ok (JVal.obj kvs) =>
      match (jlookup kvs "method").getD JVal.null with
      | JVal.str m =>
        if m = "initialize" then some (initialize_server (reqIdOfObj kvs))
        else if m = "tools/list" then some (list_tools (reqIdOfObj kvs))
        else if m = "tools/call" then
          match (jlookup kvs "params").getD (JVal.obj []) with
          | JVal.obj p =>
            some (call_tool (reqIdOfObj kvs) ((jlookup p "name").getD JVal.null)
                    ((jlookup p "arguments").getD (JVal.obj [])) w).1
          | other =>
            some (errResp (reqIdOfObj kvs) (-32000) ("Internal error: " ++ noAttrMsg other "get"))
        else some (errResp (reqIdOfObj kvs) (-32601) ("Method not found: " ++ m))
      | other => some (errResp (reqIdOfObj kvs) (-32601) ("Method not found: " ++ pyFormat other))
    | .ok other => some (errResp JVal.null (-32000) ("Internal error: " ++ noAttrMsg other "get"))

/-! ## FastMCP tools (`mcp_graphic_design.py`) -/

/-- Validation error for a blank URL. -/
def emptyUrlErrMsg : String := "❌ Error: URL cannot be empty"

/-- Validation error for a URL without an accepted scheme. -/
def schemeErrMsg : String := "❌ Error: Please provide a valid HTTP/HTTPS URL"

/-- Error returned when `OPENAI_API_KEY` is unset. -/
def apiKeyErrMsg : String :=
  "❌ Error: OPENAI_API_KEY environment variable not found. Please set your OpenAI API key."

/-- Message of the `HTTPError` raised by `response.raise_for_status()`. -/
def httpStatusMsg (st : Nat) (reason u : String) : String :=
  toString st ++ (if st < 500 then " Client Error: " else " Server Error: ") ++
    reason ++ " for url: " ++ u

/-- The analysis prompt of `analyze_design`. -/
def designPrompt : String :=
  "Analyze this graphic design in detail. Please provide ONLY numerical scores (1-10) for each category, then detailed feedback:

SCORES (format: \"Category: X/10\"):
1. Visual Harmony: X/10
2. Clarity: X/10
3. User Friendliness: X/10
4. Interactivity: X/10
5. Creativity: X/10

Then provide detailed feedback for each category and overall recommendations."

/-- The formatted response of `analyze_design`. -/
def designReport (analysis u : String) : String :=
  "\n🎨 **GRAPHIC DESIGN ANALYSIS REPORT**\n\n📋 **ANALYSIS RESULTS:**\n" ++ analysis ++
    "\n\n🔗 **ANALYZED IMAGE:** " ++ u ++
    "\n\n---\n*✨ Analysis powered by OpenAI GPT-4 Vision*"

/-- Shared body of the image-analysis tools (`analyze_design`,
`analyze_copywriting`, `analyze_layout_alignment`,
`analyze_architectural_design` differ only in prompt and report strings),
applied to the cleaned URL. -/
def imageToolBody (report : String → String → String) (prompt u : String) (w : World) :
    String × Trace :=
  if startsWithL u "http://" || startsWithL u "https://" then
    match w.apiKey with
    | none => (apiKeyErrMsg, ⟨[], 0⟩)
    | some _ =>
      match w.httpGet u with
      | .exn m => ("❌ **Network Error:** Could not download image from URL. " ++ m, ⟨[u], 0⟩)
      | .ok st reason ct content =>
        if 400 ≤ st ∧ st < 600 then
          ("❌ **Network Error:** Could not download image from URL. " ++ httpStatusMsg st reason u,
           ⟨[u], 0⟩)
        else if startsWithL ct "image/" then
          match w.openai (prompt ++ "\ndata:image/jpeg;base64," ++ w.b64encode content) with
          | .ok analysis => (report analysis u, ⟨[u], 1⟩)
          | .error m => ("❌ **Error:** " ++ m, ⟨[u], 1⟩)
        else ("❌ Error: The provided URL does not point to an image file", ⟨[u], 0⟩)
  else (schemeErrMsg, ⟨[], 0⟩)

/-- An image-analysis tool: blank-URL validation, URL cleaning, then the body. -/
def imageToolRun (report : String → String → String) (prompt url : String) (w : World) :
    String × Trace :=
  if url = "" ∨ pyStrip url = "" then (emptyUrlErrMsg, ⟨[], 0⟩)
  else imageToolBody report prompt (cleanUrlA url) w

/-- `analyze_design(url)` of `mcp_graphic_design.py`. -/
def analyze_design (url : String) (w : World) : String × Trace :=
  imageToolRun designReport designPrompt url w

/-- The prompt of the active (second) `analyze_pdf_presentation`; the PDF is
never downloaded into the prompt, only the URL is interpolated. -/
def pdfPrompt (u : String) : String :=
  "Analyze the PDF presentation from this URL: " ++ u ++
    "

Please provide a comprehensive presentation analysis with scores (1-10) for:

**PRESENTATION DESIGN SCORES:**
1. Visual Design & Layout: X/10
2. Content Organization: X/10
3. Typography & Readability: X/10
4. Color Scheme & Consistency: X/10
5. Information Hierarchy: X/10
6. Slide Flow & Structure: X/10
7. Visual Elements Usage: X/10
8. Professional Appearance: X/10

**DETAILED ANALYSIS:** slide design quality, content organization,
typography and readability, visual elements, presentation flow.

**RECOMMENDATIONS:** specific improvements for slide design, content
organization suggestions, visual enhancement recommendations, professional
presentation tips.

Note: This analysis is based on presentation design best practices. For detailed visual analysis, please convert PDF pages to images and use the image analysis tools."

/-- The formatted response of the active `analyze_pdf_presentation`. -/
def pdfReport (analysis u : String) : String :=
  "\n📊 **PDF PRESENTATION ANALYSIS REPORT**\n\n🔗 **ANALYZED PDF:** " ++ u ++
    "\n\n📋 **ANALYSIS RESULTS:**\n" ++ analysis ++
    "\n\n💡 **NOTE:** This analysis is based on presentation design principles. For detailed visual analysis of specific slides, please convert PDF pages to images and use the `analyze_design` tool." ++
    "\n\n📸 **For detailed slide-by-slide analysis:**\n1. Convert PDF pages to images (PNG/JPG)\n2. Upload images to an image hosting service\n3. Use `analyze_design` with each slide image URL" ++
    "\n\n---\n*✨ Analysis powered by OpenAI GPT-4o & Presentation Design Principles*"

/-- Body of the active `analyze_pdf_presentation` on the cleaned URL. Note
the lenient content check: it rejects only when the lowercased content type
does not contain "pdf" AND the lowercased URL does not end in ".pdf". -/
def pdfBody (u : String) (w : World) : String × Trace :=
  if startsWithL u "http://" || startsWithL u "https://" then
    match w.apiKey with
    | none => (apiKeyErrMsg, ⟨[], 0⟩)
    | some _ =>
      match w.httpGet u with
      | .exn m => ("❌ **Network Error:** Could not download PDF from URL. " ++ m, ⟨[u], 0⟩)
      | .ok st reason ct _ =>
        if 400 ≤ st ∧ st < 600 then
          ("❌ **Network Error:** Could not download PDF from URL. " ++ httpStatusMsg st reason u,
           ⟨[u], 0⟩)
        else if !(containsSubL "pdf" (lowerS ct)) && !(endsWithL (lowerS u) ".pdf") then
          ("❌ Error: The provided URL does not appear to point to a PDF file", ⟨[u], 0⟩)
        else
          match w.openai (pdfPrompt u) with
          | .ok analysis => (pdfReport analysis u, ⟨[u], 1⟩)
          | .error m => ("❌ **Error:** " ++ m, ⟨[u], 1⟩)
  else (schemeErrMsg, ⟨[], 0⟩)

/-- The active (second) `analyze_pdf_presentation(url)`; it shadows the
stricter first definition of the same name. -/
def analyze_pdf_presentation (url : String) (w : World) : String × Trace :=
  if url = "" ∨ pyStrip url = "" then (emptyUrlErrMsg, ⟨[], 0⟩)
  else pdfBody (cleanUrlA url) w

/-- The prompt of `analyze_website_design` (URL interpolated, no download). -/
def websitePrompt (u : String) : String :=
  "Analyze the website design at: " ++ u ++
    "

Please provide a comprehensive website design analysis with scores (1-10) for:

**WEBSITE DESIGN SCORES:**
1. Layout & Structure: X/10
2. Navigation & UX: X/10
3. Visual Hierarchy: X/10
4. Color Scheme & Branding: X/10
5. Typography: X/10
6. Responsiveness: X/10
7. Loading Speed: X/10
8. Accessibility: X/10

**DETAILED ANALYSIS** and **RECOMMENDATIONS** based on general web design principles."

/-- The formatted response of `analyze_website_design`. -/
def websiteReport (analysis u : String) : String :=
  "\n🌐 **WEBSITE DESIGN ANALYSIS REPORT**\n\n🔗 **ANALYZED WEBSITE:** " ++ u ++
    "\n\n📊 **ANALYSIS RESULTS:**\n" ++ analysis ++
    "\n\n💡 **NOTE:** This analysis is based on web design best practices." ++
    "\n\n---\n*✨ Analysis powered by OpenAI GPT-4o & Web Design Principles*"

/-- Body of `analyze_website_design` on the whitespace-stripped URL: note
that unlike every other tool it does NOT strip a leading `@`, and it
prepends `https://` instead of rejecting a missing scheme. No download is
performed. -/
def websiteBody (u0 : String) (w : World) : String × Trace :=
  match w.apiKey with
  | none => (apiKeyErrMsg, ⟨[], 0⟩)
  | some _ =>
    match w.openai (websitePrompt (if startsWithL u0 "http://" || startsWithL u0 "https://" then u0
                                   else "https://" ++ u0)) with
    | .ok analysis =>
      (websiteReport analysis (if startsWithL u0 "http://" || startsWithL u0 "https://" then u0
                               else "https://" ++ u0), ⟨[], 1⟩)
    | .error m => ("❌ **Error:** " ++ m, ⟨[], 1⟩)

/-- `analyze_website_design(url)`: cleaning is `url.strip()` only. -/
def analyze_website_design (url : String) (w : World) : String × Trace :=
  if url = "" ∨ pyStrip url = "" then (emptyUrlErrMsg, ⟨[], 0⟩)
  else websiteBody (pyStrip url) w

/-! ## Google link converter (`google_link_converter.py` and the identical
copy in `mcp_graphic_design.py`) -/

/-- A character of the regex class `[a-zA-Z0-9-_]`. -/
def gidChar (c : Char) : Bool := c.isAlpha || c.isDigit || c == '-' || c == '_'

/-- Maximal leading run of id characters (the greedy `+` of the regex). -/
def takeIdRun : List Char → List Char
  | [] => []
  | c :: rest => if gidChar c then c :: takeIdRun rest else []

/-- `re.search(lit + "([a-zA-Z0-9-_]+)", s)`: the captured group at the
leftmost position where the literal occurs followed by at least one id
character. -/
def findIdAfter (lit : List Char) : List Char → Option String
  | [] => none
  | c :: rest =>
    if lit.isPrefixOf (c :: rest) then
      if (takeIdRun ((c :: rest).drop lit.length)).isEmpty then findIdAfter lit rest
      else some (String.mk (takeIdRun ((c :: rest).drop lit.length)))
    else findIdAfter lit rest

/-- Literal part of the Google Slides pattern. -/
def slidesLit : List Char := "https://docs.google.com/presentation/d/".data

/-- Literal part of the Google Drive pattern. -/
def driveLit : List Char := "https://drive.google.com/file/d/".data

/-- Literal part of the Google Docs pattern. -/
def docsLit : List Char := "https://docs.google.com/document/d/".data

/-- Literal part of the Google Sheets pattern. -/
def sheetsLit : List Char := "https://docs.google.com/spreadsheets/d/".data

/-- One entry of the `analysis_urls` list. -/
structure AnalysisUrl where
  format : String
  url : String
  description : String
deriving DecidableEq

/-- The result dict of `convert_google_links_to_direct_urls`; `none` fields
model absent keys. -/
structure ConvertResult where
  original_url : String
  file_type : Option String
  file_id : Option String
  analysis_urls : List AnalysisUrl
  error : Option String
deriving DecidableEq

/-- `convert_google_links_to_direct_urls(url)`. -/
def convert_google_links_to_direct_urls (url : String) : ConvertResult :=
  match findIdAfter slidesLit url.data with
  | some fid =>
    ⟨url, some "google_slides", some fid,
      [⟨"pdf", "https://docs.google.com/presentation/d/" ++ fid ++ "/export/pdf",
        "PDF version for presentation analysis"⟩,
       ⟨"pptx", "https://docs.google.com/presentation/d/" ++ fid ++ "/export/pptx",
        "PowerPoint version for download"⟩], none⟩
  | none =>
  match findIdAfter driveLit url.data with
  | some fid =>
    ⟨url, some "google_drive", some fid,
      [⟨"direct_download", "https://drive.google.com/u/0/uc?id=" ++ fid ++ "&export=download",
        "Direct download link for the file"⟩], none⟩
  | none =>
  match findIdAfter docsLit url.data with
  | some fid =>
    ⟨url, some "google_docs", some fid,
      [⟨"pdf", "https://docs.google.com/document/d/" ++ fid ++ "/export?format=pdf",
        "PDF version for document analysis"⟩,
       ⟨"docx", "https://docs.google.com/document/d/" ++ fid ++ "/export?format=docx",
        "Word document version"⟩], none⟩
  | none =>
  match findIdAfter sheetsLit url.data with
  | some fid =>
    ⟨url, some "google_sheets", some fid,
      [⟨"pdf", "https://docs.google.com/spreadsheets/d/" ++ fid ++ "/export?format=pdf",
        "PDF version for analysis"⟩,
       ⟨"xlsx", "https://docs.google.com/spreadsheets/d/" ++ fid ++ "/export?format=xlsx",
        "Excel version for download"⟩], none⟩
  | none =>
    ⟨url, some "unknown", none, [], some "URL format not recognized as a Google file sharing link"⟩

/-! ## Google-file analysis tool (`analyze_google_file_link`) -/

/-- The copywriting analysis prompt of `analyze_copywriting` (inner bullet
text abridged; the free text does not influence control flow). -/
def copywritingPrompt : String :=
  "Analyze the copywriting/text content in this image. Please provide:\n\n**1. TEXT EXTRACTION**\n- List all visible text/copywriting in the image\n\n**2. COPYWRITING SCORES** (format: \"Category: X/10\"):\n- Clarity: X/10\n- Persuasiveness: X/10\n- Emotional Appeal: X/10\n- Call-to-Action: X/10\n- Brand Voice: X/10\n\n**3. ALTERNATIVE COPYWRITING SUGGESTIONS**\n- Provide 3-5 alternative copywriting options that could improve the message\n\n**4. RECOMMENDATIONS**\n- Specific improvements for the existing copy\n\nIf no text is visible, indicate that no copywriting was found to analyze."

/-- The formatted response of `analyze_copywriting`. -/
def copywritingReport (analysis u : String) : String :=
  "\n✍️ **COPYWRITING ANALYSIS REPORT**\n\n📝 **ANALYSIS RESULTS:**\n" ++ analysis ++
    "\n\n🔗 **ANALYZED IMAGE:** " ++ u ++
    "\n\n---\n*✨ Analysis powered by OpenAI GPT-4 Vision*"

/-- `analyze_copywriting(url)`: identical body to `analyze_design` up to
prompt and report strings. -/
def analyze_copywriting (url : String) (w : World) : String × Trace :=
  imageToolRun copywritingReport copywritingPrompt url w

/-- The layout analysis prompt of `analyze_layout_alignment` (inner bullet
text abridged; the free text does not influence control flow). -/
def layoutPrompt : String :=
  "Analyze this design with a focus on layout, alignment, and spacing issues. Provide detailed feedback on:\n\n**LAYOUT ANALYSIS SCORES** (format: \"Category: X/10\"):\n1. Overall Alignment: X/10\n2. Spacing Consistency: X/10\n3. Grid System Usage: X/10\n4. Element Balance: X/10\n5. Visual Weight Distribution: X/10\n\n**DETAILED LAYOUT ASSESSMENT:** alignment issues, spacing problems, symmetry and asymmetry, grid and structure, specific recommendations.\n\nBe very specific about what needs to be fixed and how to fix it."

/-- The formatted response of `analyze_layout_alignment`. -/
def layoutReport (analysis u : String) : String :=
  "\n📐 **LAYOUT & ALIGNMENT ANALYSIS REPORT**\n\n📊 **LAYOUT ANALYSIS:**\n" ++ analysis ++
    "\n\n🔗 **ANALYZED IMAGE:** " ++ u ++
    "\n\n---\n*✨ Analysis powered by OpenAI GPT-4o Vision - Layout Specialist*"

/-- `analyze_layout_alignment(url)`: identical body to `analyze_design` up
to prompt and report strings. -/
def analyze_layout_alignment (url : String) (w : World) : String × Trace :=
  imageToolRun layoutReport layoutPrompt url w

/-- Python `str.upper()` (ASCII). -/
def pyUpper (s : String) : String := String.mk (s.data.map Char.toUpper)

/-- Helper for Python `str.title()`: the flag records whether the previous
character was alphabetic. -/
def pyTitleAux : Bool → List Char → List Char
  | _, [] => []
  | prevAlpha, c :: rest =>
    (if c.isAlpha then (if prevAlpha then c.toLower else c.toUpper) else c) ::
      pyTitleAux c.isAlpha rest

/-- Python `str.title()` (ASCII). -/
def pyTitle (s : String) : String := String.mk (pyTitleAux false s.data)

/-- Python `str.replace(\'_\', \' \')`. -/
def replaceUnderscores (s : String) : String :=
  String.mk (s.data.map (fun c => if c == '_' then ' ' else c))

/-- The `for` loop of `analyze_google_file_link` picking the first
analysis URL of format "pdf". -/
def firstPdfUrl : List AnalysisUrl → Option String
  | [] => none
  | a :: rest => if a.format = "pdf" then some a.url else firstPdfUrl rest

/-- URL selection of `analyze_google_file_link`: prefer a pdf entry, fall
back to the first entry; the empty string models the falsy `None`. -/
def pickAnalysisUrl (l : List AnalysisUrl) : String :=
  if (firstPdfUrl l).getD "" = "" then
    match l with
    | [] => ""
    | x :: _ => x.url
  else (firstPdfUrl l).getD ""

/-- The per-entry lines of the conversion info block. -/
def urlInfoLines : List AnalysisUrl → String
  | [] => ""
  | a :: rest =>
    "• **" ++ pyUpper a.format ++ ":** " ++ a.url ++ "\n  _" ++ a.description ++ "_\n" ++
      urlInfoLines rest

/-- The `conversion_info` block of `analyze_google_file_link`. -/
def conversionInfo (u : String) (r : ConvertResult) (analysisUrl : String) : String :=
  "\n🔄 **GOOGLE FILE LINK CONVERSION**\n\n📁 **Original URL:** " ++ u ++
    "\n📋 **File Type:** " ++ pyTitle (replaceUnderscores (r.file_type.getD "")) ++
    "\n🔗 **File ID:** " ++ r.file_id.getD "Unknown" ++
    "\n\n📎 **Available Analysis URLs:**\n" ++ urlInfoLines r.analysis_urls ++
    "\n🎯 **Using for Analysis:** " ++ analysisUrl ++ "\n\n"

/-- `analyze_google_file_link(url, analysis_type)`: clean the URL, convert
the sharing link, bail out with the conversion error when no pattern
matched, pick the analysis URL (pdf preferred), and dispatch to the chosen
tool, prefixing the conversion info. Note there is no blank-url validation:
a blank url reaches the converter and yields its link-format error. -/
def analyze_google_file_link (url analysisType : String) (w : World) : String × Trace :=
  let u := pyLstripAt (pyStrip url)
  let converted := convert_google_links_to_direct_urls u
  match converted.error with
  | some e => ("❌ Error: " ++ e, ⟨[], 0⟩)
  | none =>
    let analysisUrl := pickAnalysisUrl converted.analysis_urls
    if analysisUrl = "" then ("❌ Could not generate analysis URL", ⟨[], 0⟩)
    else
      let res :=
        if converted.file_type = some "google_slides" ∧ analysisType = "presentation" then
          analyze_pdf_presentation analysisUrl w
        else if analysisType = "design" then analyze_design analysisUrl w
        else if analysisType = "copywriting" then analyze_copywriting analysisUrl w
        else if analysisType = "layout" then analyze_layout_alignment analysisUrl w
        else if converted.file_type = some "google_slides" then
          analyze_pdf_presentation analysisUrl w
        else analyze_design analysisUrl w
      (conversionInfo u converted analysisUrl ++ res.1, res.2)

/-! ## Retry-based PDF fetch (modelled from the spec) -/

/-- Modelled from the spec: the repository variant of the PDF-fetch tool
that implements "a bounded ordered retry policy: a fixed list of
alternative request strategies (different header sets, user agents, an
http→https rewrite, and a session-priming GET to the site root before the
real request), tried in sequence ..., stopping at the first response that
returns HTTP 200 with a body above a minimum size threshold; if every
strategy is exhausted, return a single aggregated failure message naming
all attempted strategies"
is not present under `src/` (only the plain single-request
`analyze_pdf_presentation` is); this section models that retry policy from
the words of the spec. One strategy descriptor: a name, a header set / user
agent choice, whether the URL is rewritten from http to https, and whether
a session-priming GET to the site root precedes the real request. -/
structure RetryStrategy where
  name : String
  headerSet : String
  rewriteHttps : Bool
  primeRoot : Bool
deriving DecidableEq

/-- Modelled from the spec: outcome of one attempted strategy — a raised
exception or a response with an HTTP status and a body of some size. -/
inductive AttemptOutcome where
  | raised (msg : String)
  | resp (status : Nat) (size : Nat) (body : String)

/-- Modelled from the spec: oracle executing one strategy, plus the
downstream analysis call. -/
structure RetryWorld where
  attempt : RetryStrategy → AttemptOutcome
  analyze : String → String

/-- Modelled from the spec: the minimum body size threshold. -/
def minPdfBodySize : Nat := 1000

/-- Modelled from the spec: the success predicate — HTTP 200 with a body
above the minimum size threshold. -/
def strategySucceeds : AttemptOutcome → Bool
  | .raised _ => false
  | .resp status size _ => status == 200 && minPdfBodySize < size

/-- Modelled from the spec: the fixed ordered list of request strategies. -/
def pdfFetchStrategies : List RetryStrategy :=
  [⟨"standard browser headers", "browser-like headers", false, false⟩,
   ⟨"alternative user agent", "alternative user agent", false, false⟩,
   ⟨"https rewrite", "browser-like headers", true, false⟩,
   ⟨"session priming", "browser-like headers", false, true⟩]

/-- Modelled from the spec: try the strategies in order; return the first
successful body (if any) and the names of all attempted strategies. -/
def runStrategies (w : RetryWorld) : List RetryStrategy → Option String × List String
  | [] => (none, [])
  | strat :: rest =>
    match w.attempt strat with
    | .raised _ =>
      ((runStrategies w rest).1, strat.name :: (runStrategies w rest).2)
    | .resp status size body =>
      if strategySucceeds (.resp status size body) then (some body, [strat.name])
      else ((runStrategies w rest).1, strat.name :: (runStrategies w rest).2)

/-- Modelled from the spec: the aggregated failure message naming all
attempted strategies. -/
def retryFailMsg (names : List String) : String :=
  "❌ All fetch strategies failed. Attempted strategies: " ++ String.intercalate ", " names

/-- Modelled from the spec: the retry-based PDF tool — fetch with the
strategy list, then either analyze the body (one analysis call) or return
the aggregated failure message (no analysis call). -/
def analyze_pdf_with_retry (w : RetryWorld) : String × Nat :=
  match runStrategies w pdfFetchStrategies with
  | (some body, _) => (pdfReport (w.analyze body) "retry", 1)
  | (none, names) => (retryFailMsg names, 0)

/-! ## Concrete worlds for witnesses and counterexamples -/

/-- A world where every call succeeds. -/
def testWorld : World :=
  ⟨some "k", Except.ok "ck",
   fun u => FetchResult.ok 200 "OK" "image/png" ("IMG:" ++ u),
   fun c => "b64(" ++ c ++ ")",
   fun _ => Except.ok "ANALYSIS"⟩

/-- A world whose `requests.get` raises (as it does on an empty URL). -/
def failWorld : World :=
  ⟨some "k", Except.ok "ck",
   fun _ => FetchResult.exn "MissingSchema",
   fun c => "b64(" ++ c ++ ")",
   fun _ => Except.ok "ANALYSIS"⟩

/-- A world serving an HTML page (content type `text/html`). -/
def htmlWorld : World :=
  ⟨some "k", Except.ok "ck",
   fun _ => FetchResult.ok 200 "OK" "text/html" "<html></html>",
   fun c => "b64(" ++ c ++ ")",
   fun _ => Except.ok "ANALYSIS"⟩

/-- A world without any API credential. -/
def noKeyWorld : World :=
  ⟨none, Except.error "OpenAI API key Cursor MCP konfigürasyonunda bulunamadı",
   fun u => FetchResult.ok 200 "OK" "image/png" ("IMG:" ++ u),
   fun c => "b64(" ++ c ++ ")",
   fun _ => Except.ok "ANALYSIS"⟩

/-- A retry world where every strategy is blocked. -/
def blockedRetryWorld : RetryWorld :=
  ⟨fun _ => AttemptOutcome.raised "403 Forbidden", fun _ => "ANALYSIS"⟩

/-! ## Helper lemmas -/

theorem strData_append (a b : String) : (a ++ b).data = a.data ++ b.data := rfl

theorem str_mk_ne_empty (c : Char) (l : List Char) : String.mk (c :: l) ≠ "" := by
  intro h
  have h2 := congrArg String.data h
  exact List.noConfusion h2

theorem str_ne_empty_of_data {s : String} {c : Char} {t : List Char} (hd : s.data = c :: t) :
    s ≠ "" := by
  intro h
  rw [h] at hd
  exact List.noConfusion hd

theorem envOk_okResp (i v : JVal) : envOk i (okResp i v) := ⟨rfl, Or.inl ⟨rfl, rfl⟩⟩

theorem envOk_errResp (i : JVal) (c : Int) (m : String) : envOk i (errResp i c m) :=
  ⟨rfl, Or.inr ⟨rfl, rfl⟩⟩

theorem run_analyze_design_envOk (i : JVal) (u : String) (w : World) :
    envOk i (run_analyze_design i u w).1 := by
  unfold run_analyze_design
  repeat' split
  all_goals first
    | exact envOk_errResp _ _ _
    | exact envOk_okResp _ _

theorem call_tool_envOk (i name args : JVal) (w : World) :
    envOk i (call_tool i name args w).1 := by
  unfold call_tool
  repeat' split
  all_goals first
    | exact run_analyze_design_envOk _ _ _
    | exact envOk_errResp _ _ _

/-! ## Claim theorems -/

/-- C9: for every input string, `convert_google_links_to_direct_urls` echoes
the input as `original_url`, always sets a `file_type`, sets `error` exactly
when the `file_type` is "unknown", which happens exactly when
`analysis_urls` is empty; for the slides/docs/sheets types the first
analysis URL has format "pdf". -/
theorem convert_result_invariants (url : String) :
    (convert_google_links_to_direct_urls url).original_url = url ∧
    (convert_google_links_to_direct_urls url).file_type.isSome = true ∧
    ((convert_google_links_to_direct_urls url).error.isSome = true ↔
      (convert_google_links_to_direct_urls url).file_type = some "unknown") ∧
    ((convert_google_links_to_direct_urls url).file_type = some "unknown" ↔
      (convert_google_links_to_direct_urls url).analysis_urls = []) ∧
    (((convert_google_links_to_direct_urls url).file_type = some "google_slides" ∨
      (convert_google_links_to_direct_urls url).file_type = some "google_docs" ∨
      (convert_google_links_to_direct_urls url).file_type = some "google_sheets") →
      ((convert_google_links_to_direct_urls url).analysis_urls.head?).map AnalysisUrl.format =
        some "pdf") := by
  unfold convert_google_links_to_direct_urls
  repeat' split
  all_goals refine ⟨rfl, rfl, ?_, ?_, ?_⟩
  all_goals simp_all

/-- C9 witness: the invariants evaluated on a concrete Google Slides link. -/
theorem convert_result_invariants_witness :
    ((convert_google_links_to_direct_urls
        "https://docs.google.com/presentation/d/abc-123/edit").analysis_urls.head?).map
      AnalysisUrl.format = some "pdf" :=
  (convert_result_invariants "https://docs.google.com/presentation/d/abc-123/edit").2.2.2.2
    (Or.inl (by decide))

/-- C10: when standard input is empty or whitespace-only, `main` returns
without writing any response object. -/
theorem blank_stdin_no_response (input : String) (parse : Except String JVal) (w : World)
    (h : pyStrip input = "") : mainDispatch input parse w = none := by
  unfold mainDispatch
  rw [if_pos h]

/-- C10 witness: whitespace-only input, no response. -/
theorem blank_stdin_no_response_witness :
    pyStrip "  \n " = "" ∧ mainDispatch "  \n " (Except.error "x") testWorld = none :=
  ⟨by decide, blank_stdin_no_response "  \n " (Except.error "x") testWorld (by decide)⟩

/-- C6: whenever `json.loads` raises on (non-blank) input bytes — whatever
they contain — the response written is the parse error with code -32700 and
null id. -/
theorem malformed_input_parse_error (input msg : String) (w : World) (r : Response)
    (h : mainDispatch input (Except.error msg) w = some r) :
    r = errResp JVal.null (-32700) ("Parse error: " ++ msg) := by
  unfold mainDispatch at h
  split at h
  · exact absurd h (by simp)
  · exact (Option.some.inj h).symm

/-- C6 witness: a concrete malformed input produces the -32700 response. -/
theorem malformed_input_parse_error_witness :
    mainDispatch "\x7bbad" (Except.error "Expecting value") testWorld =
      some (errResp JVal.null (-32700) ("Parse error: " ++ "Expecting value")) ∧
    errResp JVal.null (-32700) ("Parse error: " ++ "Expecting value") =
      errResp JVal.null (-32700) ("Parse error: " ++ "Expecting value") :=
  ⟨rfl, malformed_input_parse_error "\x7bbad" "Expecting value" testWorld _ rfl⟩

/-- C7: a `tools/call` naming anything other than the registered tool
`analyze_design` yields a -32000 error whose message names the unknown
tool, with no download and no analysis call. -/
theorem unknown_tool_error (i name args : JVal) (w : World)
    (h : ∀ s, name = JVal.str s → s ≠ "analyze_design") :
    call_tool i name args w =
      (errResp i (-32000) ("Bilinmeyen tool: " ++ pyFormat name), ⟨[], 0⟩) := by
  cases name
  case str s =>
    have hs : ¬(s = "analyze_design") := h s rfl
    simp only [call_tool, pyFormat]
    rw [if_neg hs]
  all_goals rfl

/-- C7 witness: calling the unregistered tool "foo". -/
theorem unknown_tool_error_witness :
    call_tool JVal.null (JVal.str "foo") (JVal.obj []) testWorld =
      (errResp JVal.null (-32000) ("Bilinmeyen tool: " ++ pyFormat (JVal.str "foo")), ⟨[], 0⟩) :=
  unknown_tool_error JVal.null (JVal.str "foo") (JVal.obj []) testWorld
    (fun s hs => by injection hs with h2; subst h2; decide)

/-- Helper for C1: exhausting a strategy list yields no body and the names
of every strategy in order. -/
theorem runStrategies_all_fail (w : RetryWorld) (l : List RetryStrategy)
    (h : ∀ strat ∈ l, strategySucceeds (w.attempt strat) = false) :
    runStrategies w l = (none, l.map RetryStrategy.name) := by
  induction l with
  | nil => rfl
  | cons s t ih =>
    have hs := h s (List.mem_cons_self s t)
    have ht := ih (fun x hx => h x (List.mem_cons_of_mem s hx))
    unfold runStrategies
    cases hat : w.attempt s with
    | raised m => simp [ht]
    | resp st sz body =>
      have hss : strategySucceeds (AttemptOutcome.resp st sz body) = false := by
        rw [← hat]; exact hs
      simp [hss, ht]

/-- C1: when every strategy in the fixed ordered retry list fails (raises,
non-200, or too-small body), the retry-based PDF tool returns the single
aggregated failure message naming all attempted strategies and makes no
analysis call. -/
theorem retry_exhaustion_aggregated (w : RetryWorld)
    (h : ∀ strat ∈ pdfFetchStrategies, strategySucceeds (w.attempt strat) = false) :
    analyze_pdf_with_retry w =
      (retryFailMsg (pdfFetchStrategies.map RetryStrategy.name), 0) := by
  unfold analyze_pdf_with_retry
  rw [runStrategies_all_fail w pdfFetchStrategies h]

/-- C1 witness: a world in which every strategy raises. -/
theorem retry_exhaustion_aggregated_witness :
    (∀ strat ∈ pdfFetchStrategies, strategySucceeds (blockedRetryWorld.attempt strat) = false) ∧
    analyze_pdf_with_retry blockedRetryWorld =
      (retryFailMsg (pdfFetchStrategies.map RetryStrategy.name), 0) :=
  ⟨fun _ _ => rfl, retry_exhaustion_aggregated blockedRetryWorld (fun _ _ => rfl)⟩

/-- C2: every response object written by the dispatcher carries exactly one
of `result` and `error`, and its id echoes the request id (null when the
request had no id or could not be parsed). -/
theorem main_envelope_roundtrip (input : String) (parse : Except String JVal) (w : World)
    (r : Response) (h : mainDispatch input parse w = some r) : envOk (reqIdOf parse) r := by
  unfold mainDispatch at h
  repeat' split at h
  all_goals (try exact Option.noConfusion h)
  all_goals (injection h with h2; subst h2)
  all_goals simp only [reqIdOf]
  all_goals first
    | exact call_tool_envOk _ _ _ _
    | exact envOk_errResp _ _ _
    | exact envOk_okResp _ _

/-- C2 witness: a parse failure yields a well-formed error envelope with null id. -/
theorem main_envelope_roundtrip_witness :
    mainDispatch "x" (Except.error "oops") testWorld =
      some (errResp JVal.null (-32700) ("Parse error: " ++ "oops")) ∧
    envOk (reqIdOf (Except.error "oops"))
      (errResp JVal.null (-32700) ("Parse error: " ++ "oops")) :=
  ⟨rfl, main_envelope_roundtrip "x" (Except.error "oops") testWorld _ rfl⟩

/-- Helper: a non-empty url string steers `call_tool` for tool
`analyze_design` into the download/analyze body on the cleaned URL. -/
theorem call_tool_analyze_design_str (i : JVal) (v : String) (w : World) (hv : v ≠ "") :
    call_tool i (JVal.str "analyze_design") (JVal.obj [("url", JVal.str v)]) w =
      run_analyze_design i (cleanUrlB v) w := by
  have htr : pyTruthy (JVal.str v) = true := by simp [pyTruthy, hv]
  simp [call_tool, jlookup, htr]

/-- C8 (amended form of nothing — confirmation): with the credential absent
from process configuration every FastMCP tool returns the descriptive
in-band error string (before any network call), and `call_tool` returns a
well-formed -32000 error envelope carrying the descriptive message, without
crashing and without any OpenAI call. -/
theorem missing_credential_in_band (report : String → String → String) (prompt url u0 : String)
    (i : JVal) (w : World) (reason ct content m : String)
    (hu : ¬(url = "" ∨ pyStrip url = ""))
    (hs : (startsWithL (cleanUrlA url) "http://" || startsWithL (cleanUrlA url) "https://") = true)
    (hkey : w.apiKey = none)
    (hck : w.cursorKey = Except.error m)
    (hu0 : u0 ≠ "")
    (hget : w.httpGet (cleanUrlB u0) = FetchResult.ok 200 reason ct content) :
    imageToolRun report prompt url w = (apiKeyErrMsg, ⟨[], 0⟩) ∧
    analyze_pdf_presentation url w = (apiKeyErrMsg, ⟨[], 0⟩) ∧
    analyze_website_design url w = (apiKeyErrMsg, ⟨[], 0⟩) ∧
    call_tool i (JVal.str "analyze_design") (JVal.obj [("url", JVal.str u0)]) w =
      (errResp i (-32000) ("OpenAI analiz hatası: API key alınırken hata: " ++ m),
       ⟨[cleanUrlB u0], 0⟩) ∧
    envOk i (call_tool i (JVal.str "analyze_design") (JVal.obj [("url", JVal.str u0)]) w).1 := by
  refine ⟨?_, ?_, ?_, ?_, call_tool_envOk _ _ _ _⟩
  · unfold imageToolRun
    rw [if_neg hu]
    unfold imageToolBody
    rw [hs, if_pos rfl, hkey]
  · unfold analyze_pdf_presentation
    rw [if_neg hu]
    unfold pdfBody
    rw [hs, if_pos rfl, hkey]
  · unfold analyze_website_design
    rw [if_neg hu]
    unfold websiteBody
    rw [hkey]
  · rw [call_tool_analyze_design_str i u0 w hu0]
    unfold run_analyze_design fetch_image_base64
    rw [hget]
    simp [analyze_image_with_openai, hck]

/-- C8 witness: a concrete world with no credential anywhere. -/
theorem missing_credential_in_band_witness :
    analyze_design "https://x.com/a.png" noKeyWorld = (apiKeyErrMsg, ⟨[], 0⟩) ∧
    call_tool JVal.null (JVal.str "analyze_design")
        (JVal.obj [("url", JVal.str "https://y.com/b.png")]) noKeyWorld =
      (errResp JVal.null (-32000)
        ("OpenAI analiz hatası: API key alınırken hata: " ++
          "OpenAI API key Cursor MCP konfigürasyonunda bulunamadı"),
       ⟨[cleanUrlB "https://y.com/b.png"], 0⟩) := by
  have h := missing_credential_in_band designReport designPrompt "https://x.com/a.png"
    "https://y.com/b.png" JVal.null noKeyWorld "OK" "image/png"
    ("IMG:" ++ cleanUrlB "https://y.com/b.png")
    "OpenAI API key Cursor MCP konfigürasyonunda bulunamadı"
    (by decide) (by decide) rfl rfl (by decide) rfl
  exact ⟨h.1, h.2.2.2.1⟩

/-- C3 counterexample: in the `call_tool` variant a whitespace-only url
passes the truthiness check, so `requests.get` IS invoked (on the stripped,
empty, URL) and the returned error is a download error, not a validation
error — refuting the claim for this variant. -/
theorem whitespace_url_network_call_counterexample :
    (call_tool JVal.null (JVal.str "analyze_design") (JVal.obj [("url", JVal.str " ")])
        failWorld).2 = ⟨[""], 0⟩ ∧
    ((call_tool JVal.null (JVal.str "analyze_design") (JVal.obj [("url", JVal.str " ")])
        failWorld).1).error =
      some ⟨-32000, "Görsel indirme hatası: " ++ "MissingSchema"⟩ :=
  ⟨rfl, rfl⟩

/-- C3 amended: on a blank or whitespace-only url each FastMCP tool yields
an in-band error with no network call and no analysis call — the
url-validating tools (the image tools, the active PDF tool and the website
tool) return the validation error "URL cannot be empty", while
`analyze_google_file_link` (which has no blank-url check) returns its
link-format conversion error; the `call_tool` variant yields its validation
error only for a falsy (empty or missing) url value. -/
theorem blank_url_validation (report : String → String → String)
    (prompt url analysisType : String) (w : World) (i : JVal)
    (kvs : List (String × JVal))
    (h1 : pyStrip url = "")
    (h2 : pyTruthy ((jlookup kvs "url").getD JVal.null) = false) :
    imageToolRun report prompt url w = (emptyUrlErrMsg, ⟨[], 0⟩) ∧
    analyze_design url w = (emptyUrlErrMsg, ⟨[], 0⟩) ∧
    analyze_pdf_presentation url w = (emptyUrlErrMsg, ⟨[], 0⟩) ∧
    analyze_website_design url w = (emptyUrlErrMsg, ⟨[], 0⟩) ∧
    analyze_google_file_link url analysisType w =
      ("❌ Error: " ++ "URL format not recognized as a Google file sharing link", ⟨[], 0⟩) ∧
    call_tool i (JVal.str "analyze_design") (JVal.obj kvs) w =
      (errResp i (-32000) "URL parametresi gerekli", ⟨[], 0⟩) := by
  refine ⟨?_, ?_, ?_, ?_, ?_, ?_⟩
  · unfold imageToolRun
    rw [if_pos (Or.inr h1)]
  · unfold analyze_design imageToolRun
    rw [if_pos (Or.inr h1)]
  · unfold analyze_pdf_presentation
    rw [if_pos (Or.inr h1)]
  · unfold analyze_website_design
    rw [if_pos (Or.inr h1)]
  · unfold analyze_google_file_link
    rw [h1]
    rfl
  · simp [call_tool, h2]

/-- C3 amended witness: whitespace-only url in the FastMCP tools (a
validating one and the google-link converter tool), empty url in
`call_tool`. -/
theorem blank_url_validation_witness :
    analyze_design "   " testWorld = (emptyUrlErrMsg, ⟨[], 0⟩) ∧
    analyze_google_file_link "   " "presentation" testWorld =
      ("❌ Error: " ++ "URL format not recognized as a Google file sharing link", ⟨[], 0⟩) ∧
    call_tool JVal.null (JVal.str "analyze_design") (JVal.obj [("url", JVal.str "")])
        testWorld = (errResp JVal.null (-32000) "URL parametresi gerekli", ⟨[], 0⟩) := by
  have h := blank_url_validation designReport designPrompt "   " "presentation" testWorld
    JVal.null [("url", JVal.str "")] (by decide) (by decide)
  exact ⟨h.2.1, h.2.2.2.2.1, h.2.2.2.2.2⟩

/-- C4 counterexample: the active PDF tool accepts a successful download
whose declared media type is `text/html` (not a PDF media type) because the
URL ends in `.pdf`, and the downstream analysis IS invoked — refuting the
claim for the PDF tool. -/
theorem pdf_content_type_counterexample :
    (analyze_pdf_presentation "https://example.com/slides.pdf" htmlWorld).2.analyses = 1 ∧
    containsSubL "pdf" (lowerS "text/html") = false :=
  ⟨rfl, rfl⟩

/-- C4 amended: image tools reject any non-`image/` media type without an
analysis call; the PDF tool rejects (without an analysis call) only when
the lowercased media type does not contain "pdf" AND the lowercased URL
does not end in ".pdf". -/
theorem content_type_mismatch_amended (report : String → String → String)
    (prompt url : String) (w : World) (st : Nat) (reason ct body k : String)
    (hu : ¬(url = "" ∨ pyStrip url = ""))
    (hs : (startsWithL (cleanUrlA url) "http://" || startsWithL (cleanUrlA url) "https://") = true)
    (hkey : w.apiKey = some k)
    (hget : w.httpGet (cleanUrlA url) = FetchResult.ok st reason ct body)
    (hst : ¬(400 ≤ st ∧ st < 600)) :
    (startsWithL ct "image/" = false →
      imageToolRun report prompt url w =
        ("❌ Error: The provided URL does not point to an image file", ⟨[cleanUrlA url], 0⟩)) ∧
    ((containsSubL "pdf" (lowerS ct) = false ∧ endsWithL (lowerS (cleanUrlA url)) ".pdf" = false) →
      analyze_pdf_presentation url w =
        ("❌ Error: The provided URL does not appear to point to a PDF file",
         ⟨[cleanUrlA url], 0⟩)) := by
  constructor
  · intro hct
    unfold imageToolRun
    rw [if_neg hu]
    unfold imageToolBody
    rw [hs, if_pos rfl, hkey, hget]
    dsimp only
    rw [if_neg hst, hct]
    simp
  · intro hct
    unfold analyze_pdf_presentation
    rw [if_neg hu]
    unfold pdfBody
    rw [hs, if_pos rfl, hkey, hget]
    dsimp only
    rw [if_neg hst, hct.1, hct.2]
    simp

/-- C4 amended witness: an HTML page behind a non-`.pdf` URL is rejected by
both tool families. -/
theorem content_type_mismatch_amended_witness :
    analyze_design "https://example.com/page" htmlWorld =
      ("❌ Error: The provided URL does not point to an image file",
       ⟨[cleanUrlA "https://example.com/page"], 0⟩) ∧
    analyze_pdf_presentation "https://example.com/page" htmlWorld =
      ("❌ Error: The provided URL does not appear to point to a PDF file",
       ⟨[cleanUrlA "https://example.com/page"], 0⟩) := by
  have h := content_type_mismatch_amended designReport designPrompt "https://example.com/page"
    htmlWorld 200 "OK" "text/html" "<html></html>" "k"
    (by decide) (by decide) rfl rfl (by decide)
  exact ⟨h.1 (by decide), h.2 (by decide)⟩

/-! ## String-stripping lemmas for C5 -/

theorem dropWhile_append_split (p : Char → Bool) (l₁ l₂ : List Char) :
    (l₁ ++ l₂).dropWhile p =
      if (l₁.dropWhile p).isEmpty then l₂.dropWhile p else l₁.dropWhile p ++ l₂ := by
  induction l₁ with
  | nil => simp
  | cons c t ih =>
    by_cases hc : p c
    · simpa [List.dropWhile_cons, hc] using ih
    · simp [List.dropWhile_cons, hc]

theorem rstripL_cons (c : Char) (t : List Char) (hc : isPySpace c = false) :
    rstripL (c :: t) = c :: rstripL t := by
  unfold rstripL
  rw [List.reverse_cons, dropWhile_append_split]
  by_cases he : (t.reverse.dropWhile isPySpace).isEmpty = true
  · rw [if_pos he, List.isEmpty_iff.mp he]
    simp [List.dropWhile_cons, hc]
  · rw [if_neg he]
    simp

theorem rstripL_append_space (t : List Char) : rstripL (t ++ [' ']) = rstripL t := by
  unfold rstripL
  rw [List.reverse_append]
  simp [List.dropWhile_cons, isPySpace]

theorem stripL_cons_of_not_space (c : Char) (t : List Char) (hc : isPySpace c = false) :
    stripL (c :: t) = c :: rstripL t := by
  unfold stripL
  rw [List.dropWhile_cons, if_neg (by simp [hc])]
  exact rstripL_cons c t hc

theorem wrap_data (s : String) : ("@" ++ s ++ " ").data = '@' :: (s.data ++ [' ']) := by
  simp [strData_append]

theorem pyStrip_ne_empty_of_data {s : String} {c : Char} {t2 : List Char}
    (hd : s.data = c :: t2) (hc : isPySpace c = false) : pyStrip s ≠ "" := by
  unfold pyStrip
  rw [hd, stripL_cons_of_not_space c t2 hc]
  exact str_mk_ne_empty _ _

theorem cleanUrlA_at_wrap {s : String} {t : List Char} (hd : s.data = 'h' :: t) :
    cleanUrlA ("@" ++ s ++ " ") = cleanUrlA s := by
  unfold cleanUrlA pyLstripAt pyStrip
  show String.mk ((stripL ("@" ++ s ++ " ").data).dropWhile (fun c => c == '@')) =
    String.mk ((stripL s.data).dropWhile (fun c => c == '@'))
  refine congrArg String.mk ?_
  rw [wrap_data, hd, List.cons_append,
    stripL_cons_of_not_space '@' ('h' :: (t ++ [' '])) (by decide),
    rstripL_cons 'h' (t ++ [' ']) (by decide),
    rstripL_append_space,
    stripL_cons_of_not_space 'h' t (by decide)]
  simp [List.dropWhile_cons]

theorem cleanUrlB_at_wrap (s : String) (t : List Char) (hd : s.data = 'h' :: t) :
    cleanUrlB ("@" ++ s ++ " ") = cleanUrlB s := by
  unfold cleanUrlB pyStrip pyLstripAt
  show String.mk (stripL ((("@" ++ s ++ " ").data).dropWhile (fun c => c == '@'))) =
    String.mk (stripL (s.data.dropWhile (fun c => c == '@')))
  refine congrArg String.mk ?_
  rw [wrap_data, hd, List.cons_append]
  simp only [List.dropWhile_cons]
  rw [if_pos (by decide : ('@' == '@') = true), if_neg (by decide : ¬(('h' == '@') = true)),
    if_neg (by decide : ¬(('h' == '@') = true))]
  rw [stripL_cons_of_not_space 'h' (t ++ [' ']) (by decide),
    stripL_cons_of_not_space 'h' t (by decide),
    rstripL_append_space]

theorem head_of_prefix {a : Char} {pre l : List Char}
    (h : List.isPrefixOf (a :: pre) l = true) : ∃ t2, l = a :: t2 := by
  cases l with
  | nil => simp [List.isPrefixOf] at h
  | cons b t2 =>
    simp [List.isPrefixOf] at h
    exact ⟨t2, by rw [h.1]⟩

theorem scheme_head {s : String}
    (hs : (startsWithL s "http://" || startsWithL s "https://") = true) :
    ∃ t2, s.data = 'h' :: t2 := by
  rw [Bool.or_eq_true] at hs
  unfold startsWithL at hs
  cases hs with
  | inl h => exact head_of_prefix (show List.isPrefixOf ('h' :: "ttp://".data) s.data = true from h)
  | inr h => exact head_of_prefix (show List.isPrefixOf ('h' :: "ttps://".data) s.data = true from h)

/-- C5 counterexample: `analyze_website_design` does NOT strip a leading
`@` (it only strips whitespace), so `"@" + s + " "` does not behave like
`s` for that tool — refuting the claim for "every tool invocation". -/
theorem website_at_sign_counterexample :
    analyze_website_design ("@" ++ "https://example.com" ++ " ") testWorld ≠
      analyze_website_design "https://example.com" testWorld := by
  decide

/-- C5 amended: in the image tools, the active PDF tool and the
`call_tool` dispatcher, leading `@` characters and surrounding whitespace
are stripped before validation and use, so `"@" + s + " "` behaves
identically to `s` for every scheme-prefixed `s`; `analyze_website_design`
is the exception (it strips only whitespace). -/
theorem at_sign_stripping_amended (report : String → String → String) (prompt : String)
    (i : JVal) (s : String) (w : World)
    (hs : (startsWithL s "http://" || startsWithL s "https://") = true) :
    imageToolRun report prompt ("@" ++ s ++ " ") w = imageToolRun report prompt s w ∧
    analyze_design ("@" ++ s ++ " ") w = analyze_design s w ∧
    analyze_pdf_presentation ("@" ++ s ++ " ") w = analyze_pdf_presentation s w ∧
    call_tool i (JVal.str "analyze_design")
        (JVal.obj [("url", JVal.str ("@" ++ s ++ " "))]) w =
      call_tool i (JVal.str "analyze_design") (JVal.obj [("url", JVal.str s)]) w := by
  obtain ⟨t, hd⟩ := scheme_head hs
  have hA := cleanUrlA_at_wrap hd
  have hB := cleanUrlB_at_wrap s t hd
  have hs1 : s ≠ "" := str_ne_empty_of_data hd
  have hs2 : pyStrip s ≠ "" := pyStrip_ne_empty_of_data hd (by decide)
  have hw1 : ("@" ++ s ++ " ") ≠ "" := str_ne_empty_of_data (wrap_data s)
  have hw2 : pyStrip ("@" ++ s ++ " ") ≠ "" :=
    pyStrip_ne_empty_of_data (wrap_data s) (by decide)
  have hne1 : ¬(("@" ++ s ++ " ") = "" ∨ pyStrip ("@" ++ s ++ " ") = "") := by
    rintro (h | h)
    exacts [hw1 h, hw2 h]
  have hne2 : ¬(s = "" ∨ pyStrip s = "") := by
    rintro (h | h)
    exacts [hs1 h, hs2 h]
  refine ⟨?_, ?_, ?_, ?_⟩
  · unfold imageToolRun
    rw [if_neg hne1, if_neg hne2, hA]
  · unfold analyze_design imageToolRun
    rw [if_neg hne1, if_neg hne2, hA]
  · unfold analyze_pdf_presentation
    rw [if_neg hne1, if_neg hne2, hA]
  · rw [call_tool_analyze_design_str i _ w hw1, call_tool_analyze_design_str i _ w hs1, hB]

/-- C5 amended witness: the identity evaluated for `analyze_design` on a
concrete scheme-prefixed URL. -/
theorem at_sign_stripping_amended_witness :
    analyze_design ("@" ++ "https://e.com/x.png" ++ " ") testWorld =
      analyze_design "https://e.com/x.png" testWorld :=
  (at_sign_stripping_amended designReport designPrompt JVal.null "https://e.com/x.png"
    testWorld (by decide)).2.1
